import Mathlib

/-!
Shallow embedding of the LogicLab "responses API" streaming translator:
  src/libs/kit/src/logiclab_kit/responses_api/schema/response_builder.py
  src/libs/kit/src/logiclab_kit/responses_api/schema/response_stream.py
  src/libs/kit/src/logiclab_kit/responses_api/streaming_response.py

Python's shared mutable objects (the sequence counter, the output-item
context, the builder's single Response record) are modelled by explicit
state passing; `raise ValueError` is modelled by an `Outcome` value, and
an exhausted upstream iterator (StopAsyncIteration escaping the driver)
by `Outcome.upstreamExhausted`.  Emitted SSE blocks are captured as a
list: each `send_model` call is a `Block.frame` holding the snapshot of
the event at serialization time, and `send_string("[DONE]")` is
`Block.sentinel`.
-/

namespace LogicLab

/-- `agno.models.metrics.Metrics`, the fields the kit reads plus the
optional cache counter the spec mentions; the builder only ever reads
`input_tokens`, `output_tokens` and `total_tokens`. -/
structure Metrics where
  input_tokens : Nat
  output_tokens : Nat
  total_tokens : Nat
  cache_read_tokens : Option Nat
deriving Repr, DecidableEq

/-- `openai.types.responses.ResponseUsage` with its two nested detail
records flattened: `cached_tokens` is `input_tokens_details.cached_tokens`
and `reasoning_tokens` is `output_tokens_details.reasoning_tokens`. -/
structure ResponseUsage where
  input_tokens : Nat
  cached_tokens : Nat
  output_tokens : Nat
  reasoning_tokens : Nat
  total_tokens : Nat
deriving Repr, DecidableEq

/-- `ResponseOutputText` snapshot: the `type` discriminator is the
constant `"output_text"`, `logprobs` is always `None` and the annotation
list is always empty, so only `text` is carried. -/
structure ResponseOutputText where
  text : String
deriving Repr, DecidableEq

/-- `ResponseOutputMessage`: `type` is the constant `"message"`. -/
structure ResponseOutputMessage where
  id : String
  content : List ResponseOutputText
  role : String
  status : String
deriving Repr, DecidableEq

/-- `openai.types.responses.Response`, restricted to the fields the
builder ever writes or the stream ever reads (`object` is the constant
`"response"`); the remaining wire fields (`error`, `instructions`,
`temperature`, `tool_choice`, `tools`, ...) are set once to `None` or a
constant in `ResponseBuilder.__init__` and never touched again. -/
structure Response where
  id : String
  created_at : Int
  model : String
  status : Option String
  output : List ResponseOutputMessage
  usage : Option ResponseUsage
deriving Repr, DecidableEq

/-- `ResponseBuilder.__init__`: a fresh Response with `status=None`,
`output=[]`, `usage=None`. -/
def ResponseBuilder.init (id : String) (created_at : Int) (model : String) : Response :=
  { id := id
    created_at := created_at
    model := model
    status := none
    output := []
    usage := none }

/-- `ResponseBuilder.status`: sets `self._response.status`. -/
def ResponseBuilder.status (r : Response) (s : String) : Response :=
  { r with status := some s }

/-- `ResponseBuilder.metrics`: when metrics are present, attaches a
`ResponseUsage` built with `InputTokensDetails(cached_tokens=0)` and
`OutputTokensDetails(reasoning_tokens=0)`; when absent, leaves the
response unchanged. -/
def ResponseBuilder.metrics (r : Response) (m : Option Metrics) : Response :=
  match m with
  | none => r
  | some m =>
      let u : ResponseUsage :=
        { input_tokens := m.input_tokens
          cached_tokens := 0
          output_tokens := m.output_tokens
          reasoning_tokens := 0
          total_tokens := m.total_tokens }
      { r with usage := some u }

/-- `ResponseBuilder.output`: replaces `self._response.output`. -/
def ResponseBuilder.output (r : Response) (o : List ResponseOutputMessage) : Response :=
  { r with output := o }

/-- `SequenceNumberCounter.__init__(start)`: `_value = start - 1`. -/
def SequenceNumberCounter.init (start : Int) : Int :=
  start - 1

/-- `SequenceNumberCounter.__call__`: increments `_value` and returns it.
The counter object is shared by reference in Python; here its `_value` is
threaded explicitly. -/
def SequenceNumberCounter.call (value : Int) : Int × Int :=
  (value + 1, value + 1)

/-- `OutputItemContext`: the per-item mutable context shared (by
reference in Python) between an output item and its text parts.  The
shared `SequenceNumberCounter` it also holds is threaded separately. -/
structure OutputItemContext where
  item_id : String
  output_index : Int
  content_index : Int
  content : List ResponseOutputText
deriving Repr, DecidableEq

/-- `OutputItemContext.__init__(output_index, counter, content_index_start)`:
`_content_index = content_index_start - 1`, empty content list.  The
random `"msg_" + uuid4` item id is supplied as a parameter. -/
def OutputItemContext.init (item_id : String) (output_index : Int)
    (content_index_start : Int) : OutputItemContext :=
  { item_id := item_id
    output_index := output_index
    content_index := content_index_start - 1
    content := [] }

/-- The `OutputItemContext.content_index` property: increments the
stored index and returns it. -/
def OutputItemContext.nextContentIndex (c : OutputItemContext) :
    OutputItemContext × Int :=
  ({ c with content_index := c.content_index + 1 }, c.content_index + 1)

/-- `OutputItemContext.add_content`: appends a part snapshot. -/
def OutputItemContext.add_content (c : OutputItemContext)
    (part : ResponseOutputText) : OutputItemContext :=
  { c with content := c.content ++ [part] }

/-- One wire frame, one constructor per event type the translator emits
(`response.created`, `response.output_item.added`,
`response.content_part.added`, `response.output_text.delta`,
`response.output_text.done`, `response.content_part.done`,
`response.output_item.done`, `response.completed`).  Each carries the
payload fields of the corresponding openai event class, with nested
snapshots captured at serialization time. -/
inductive Frame where
  | response_created (response : Response) (sequence_number : Int)
  | output_item_added (item : ResponseOutputMessage) (output_index : Int)
      (sequence_number : Int)
  | content_part_added (content_index : Int) (item_id : String)
      (output_index : Int) (part : ResponseOutputText) (sequence_number : Int)
  | output_text_delta (content_index : Int) (delta : String) (item_id : String)
      (output_index : Int) (sequence_number : Int)
  | output_text_done (content_index : Int) (item_id : String)
      (output_index : Int) (sequence_number : Int) (text : String)
  | content_part_done (content_index : Int) (item_id : String)
      (output_index : Int) (part : ResponseOutputText) (sequence_number : Int)
  | output_item_done (item : ResponseOutputMessage) (output_index : Int)
      (sequence_number : Int)
  | response_completed (response : Response) (sequence_number : Int)
deriving Repr, DecidableEq

/-- The `sequence_number` stamped on a frame. -/
def Frame.seqNum : Frame → Int
  | .response_created _ n => n
  | .output_item_added _ _ n => n
  | .content_part_added _ _ _ _ n => n
  | .output_text_delta _ _ _ _ n => n
  | .output_text_done _ _ _ n _ => n
  | .content_part_done _ _ _ _ n => n
  | .output_item_done _ _ n => n
  | .response_completed _ n => n

/-- The delta payload of a `response.output_text.delta` frame, `none`
for every other frame kind. -/
def Frame.deltaText : Frame → Option String
  | .output_text_delta _ d _ _ _ => some d
  | _ => none

/-- Whether the frame is the terminal `response.completed` frame. -/
def Frame.isResponseCompleted : Frame → Bool
  | .response_completed _ _ => true
  | _ => false

/-- `ResponseTextPart`: own state is `_text` and the `_content_index`
captured from the context at construction. -/
structure TextPart where
  text : String
  content_index : Int
deriving Repr, DecidableEq

/-- `ResponseTextPart.__init__(ctx)` (reached through
`ResponseOutputItem.new_text_part`): reads `ctx.content_index`, which
increments the shared context's counter, and starts with empty text.
There is no check that a previously allocated part has been closed. -/
def newTextPart (ctx : OutputItemContext) : OutputItemContext × TextPart :=
  let (ctx, ci) := ctx.nextContentIndex
  (ctx, { text := "", content_index := ci })

/-- `ResponseTextPart.enter`: the `response.content_part.added` frame
with an empty-text part placeholder; draws the next sequence number from
the shared counter (threaded as `seq`). -/
def TextPart.enter (p : TextPart) (ctx : OutputItemContext) (seq : Int) :
    Frame × Int :=
  let (seq, n) := SequenceNumberCounter.call seq
  (.content_part_added p.content_index ctx.item_id ctx.output_index
    { text := "" } n, seq)

/-- `ResponseTextPart.add(delta)`: appends the delta to `_text` and
returns the `response.output_text.delta` frame. -/
def TextPart.add (p : TextPart) (ctx : OutputItemContext) (seq : Int)
    (delta : String) : TextPart × Frame × Int :=
  let p := { p with text := p.text ++ delta }
  let (seq, n) := SequenceNumberCounter.call seq
  (p, .output_text_delta p.content_index delta ctx.item_id ctx.output_index n,
    seq)

/-- `ResponseTextPart.done(text)`: an explicit text, when given,
replaces `_text`; returns the `response.output_text.done` frame carrying
the (possibly replaced) text. -/
def TextPart.done (p : TextPart) (ctx : OutputItemContext) (seq : Int)
    (text : Option String) : TextPart × Frame × Int :=
  let p := match text with
    | none => p
    | some t => { p with text := t }
  let (seq, n) := SequenceNumberCounter.call seq
  (p, .output_text_done p.content_index ctx.item_id ctx.output_index n p.text,
    seq)

/-- `ResponseTextPart.exit`: snapshots the final text as a part, appends
it to the owning context's content list via `ctx.add_content`, and
returns the `response.content_part.done` frame. -/
def TextPart.exit (p : TextPart) (ctx : OutputItemContext) (seq : Int) :
    OutputItemContext × Frame × Int :=
  let part : ResponseOutputText := { text := p.text }
  let ctx := ctx.add_content part
  let (seq, n) := SequenceNumberCounter.call seq
  (ctx, .content_part_done p.content_index ctx.item_id ctx.output_index part n,
    seq)

/-- `ResponseOutputItem.enter`: the `response.output_item.added` frame
with an in-progress, empty-content message snapshot. -/
def outputItemEnter (ctx : OutputItemContext) (seq : Int) : Frame × Int :=
  let item : ResponseOutputMessage :=
    { id := ctx.item_id, content := [], role := "assistant",
      status := "in_progress" }
  let (seq, n) := SequenceNumberCounter.call seq
  (.output_item_added item ctx.output_index n, seq)

/-- `ResponseOutputItem.exit`: builds `_content_item` (the completed
message snapshot with the accumulated content) and returns the
`response.output_item.done` frame. -/
def outputItemExit (ctx : OutputItemContext) (seq : Int) :
    ResponseOutputMessage × Frame × Int :=
  let item : ResponseOutputMessage :=
    { id := ctx.item_id, content := ctx.content, role := "assistant",
      status := "completed" }
  let (seq, n) := SequenceNumberCounter.call seq
  (item, .output_item_done item ctx.output_index n, seq)

/-- One `ResponseOutputItem` as held in `ResponseStream._output_items`:
its context and its `_content_item`, which stays `None` until
`ResponseOutputItem.exit` runs. -/
structure ResponseOutputItemState where
  ctx : OutputItemContext
  content_item : Option ResponseOutputMessage
deriving Repr, DecidableEq

/-- `ResponseStream`'s allocation state: `_output_index` (starts at -1)
and `_output_items`. -/
structure ResponseStreamCore where
  output_index : Int
  items : List ResponseOutputItemState
deriving Repr, DecidableEq

/-- `ResponseStream.__init__`: `_output_items = []`, `_output_index = -1`. -/
def ResponseStreamCore.init : ResponseStreamCore :=
  { output_index := -1, items := [] }

/-- `ResponseStream.new_output_item`: increments `_output_index`, builds
a `ResponseOutputItem` whose context is
`OutputItemContext(output_index, counter, 0)`, appends it and returns
it. -/
def ResponseStreamCore.new_output_item (s : ResponseStreamCore)
    (item_id : String) : ResponseStreamCore × ResponseOutputItemState :=
  let oi := s.output_index + 1
  let item : ResponseOutputItemState :=
    { ctx := OutputItemContext.init item_id oi 0, content_item := none }
  ({ output_index := oi, items := s.items ++ [item] }, item)

/-- Iterated `new_output_item`, one call per supplied item id. -/
def newOutputItems (s : ResponseStreamCore) : List String → ResponseStreamCore
  | [] => s
  | id :: ids => newOutputItems (s.new_output_item id).fst ids

/-- Iterated `ResponseOutputItem.new_text_part` on one item's context,
collecting the allocated parts in call order. -/
def newTextParts (ctx : OutputItemContext) :
    Nat → OutputItemContext × List TextPart
  | 0 => (ctx, [])
  | n + 1 =>
      let (ctx, p) := newTextPart ctx
      let (ctx2, ps) := newTextParts ctx n
      (ctx2, p :: ps)

/-- `ResponseStream.exit(metrics)`: rebuilds the response through the
builder chain `output(closed items).status("completed").metrics(metrics)`
— the output list keeps, in list (= creation) order, exactly the
`content_item` snapshots of the items whose `content_item` is not `None`
— and returns the final response together with the `response.completed`
frame. -/
def streamExit (resp : Response) (items : List ResponseOutputItemState)
    (metrics : Option Metrics) (seq : Int) : Response × Frame × Int :=
  let resp := ResponseBuilder.metrics
    (ResponseBuilder.status
      (ResponseBuilder.output resp (items.filterMap (fun i => i.content_item)))
      "completed")
    metrics
  let (seq, n) := SequenceNumberCounter.call seq
  (resp, .response_completed resp n, seq)

/-- One upstream run event (`agno.run.agent.RunOutputEvent`), as a closed
sum over the discriminators the driver recognizes; `other` covers every
unrecognized discriminator.  `run_content` carries the event's
`content_type` string and its (possibly `None`) content payload. -/
inductive RunEvent where
  | run_started (run_id : String) (created_at : Int)
  | run_content (content_type : String) (content : Option String)
  | run_content_completed
  | run_completed (metrics : Option Metrics)
  | other (id : String)
deriving Repr, DecidableEq

/-- How the driver coroutine terminates: normally, by a `ValueError`
(the ProtocolViolation path; the message string is not modelled), or by
`StopAsyncIteration` escaping when the upstream source is exhausted. -/
inductive Outcome where
  | ok
  | protocolViolation
  | upstreamExhausted
deriving Repr, DecidableEq

/-- One SSE data block written by the driver: a serialized frame or the
literal terminal sentinel block sent by `send_string("[DONE]")`. -/
inductive Block where
  | frame (f : Frame)
  | sentinel
deriving Repr, DecidableEq

/-- Result of `StreamingResponse._content`: on normal return the updated
counter value, context, and the remaining events (with the peeked but
unconsumed `run_completed` still at the head); otherwise the error. -/
inductive ContentRes where
  | ok (seq : Int) (ctx : OutputItemContext) (rest : List RunEvent)
  | err (outcome : Outcome)
deriving Repr, DecidableEq

/-- `StreamingResponse._content`: the inner loop.  `tp` is the local
`text_part` variable (`None` when no content part is open).  Returns the
frames it sent (in order) and how it finished.  Content with a
`content_type` other than `"str"`, or a `None` content, raises
`ValueError`; empty strings are consumed with no effect; the first
non-empty content while no part is open lazily allocates a part and
emits its "added" frame before the delta frame; `run_content_completed`
requires an open part and closes it (done + exit frames);
`run_completed` requires no open part and returns without consuming the
event; any other event raises `ValueError`. -/
def contentLoop (seq : Int) (ctx : OutputItemContext) (tp : Option TextPart) :
    List RunEvent → List Frame × ContentRes
  | [] => ([], .err .upstreamExhausted)
  | ev :: rest =>
    match ev with
    | .run_content content_type content =>
        if content_type = "str" then
          match content with
          | none => ([], .err .protocolViolation)
          | some c =>
              if c = "" then contentLoop seq ctx tp rest
              else
                match tp with
                | none =>
                    let (ctx, p) := newTextPart ctx
                    let (f1, seq) := p.enter ctx seq
                    let (p, f2, seq) := p.add ctx seq c
                    let (fs, r) := contentLoop seq ctx (some p) rest
                    (f1 :: f2 :: fs, r)
                | some p =>
                    let (p, f, seq) := p.add ctx seq c
                    let (fs, r) := contentLoop seq ctx (some p) rest
                    (f :: fs, r)
        else ([], .err .protocolViolation)
    | .run_content_completed =>
        match tp with
        | none => ([], .err .protocolViolation)
        | some p =>
            let (p, f1, seq) := p.done ctx seq none
            let (ctx, f2, seq) := p.exit ctx seq
            let (fs, r) := contentLoop seq ctx none rest
            (f1 :: f2 :: fs, r)
    | .run_completed _ =>
        match tp with
        | some _ => ([], .err .protocolViolation)
        | none => ([], .ok seq ctx (ev :: rest))
    | _ => ([], .err .protocolViolation)

/-- What one full run of `StreamingResponse._do` produced: the SSE
blocks sent, the outcome, and the final value of the builder's single
`Response` record (`ResponseBuilder._response`).  `build()` returns that
record itself, not a copy, so the `response.created` and
`response.completed` events both hold this one object by reference;
`builderResponse` is its value when the driver stops (`none` when the
driver failed before `ResponseStream` was constructed). -/
structure TransOut where
  blocks : List Block
  outcome : Outcome
  builderResponse : Option Response
deriving Repr, DecidableEq

/-- `StreamingResponse._do`: the driver.  The model string comes from
the request (`self._request.model`); `item_id` stands for the random
`"msg_" + uuid4` id of the single output item.  The head event must be
`run_started` (an empty source raises `StopAsyncIteration`); the driver
then builds the `ResponseStream` (counter starts at 1, response built
with status `"in_progress"`), emits `response.created` and the item's
"added" frame, runs `_content`, requires the next event to be
`run_completed`, emits the item's "done" frame and the
`response.completed` frame, and finally the `[DONE]` sentinel.  Frames
already sent before a failure stay sent; nothing is emitted after it. -/
def translate (model : String) (item_id : String) (events : List RunEvent) :
    TransOut :=
  match events with
  | [] => { blocks := [], outcome := .upstreamExhausted, builderResponse := none }
  | ev :: rest =>
    match ev with
    | .run_started run_id created_at =>
        let seq := SequenceNumberCounter.init 1
        let resp0 := ResponseBuilder.status
          (ResponseBuilder.init run_id created_at model) "in_progress"
        let (seq, n1) := SequenceNumberCounter.call seq
        let f1 := Frame.response_created resp0 n1
        let (core, item) := ResponseStreamCore.init.new_output_item item_id
        let (f2, seq) := outputItemEnter item.ctx seq
        let (fs, r) := contentLoop seq item.ctx none rest
        match r with
        | .err o =>
            { blocks := .frame f1 :: .frame f2 :: fs.map .frame
              outcome := o
              builderResponse := some resp0 }
        | .ok seq ctx rest2 =>
            match rest2 with
            | [] =>
                { blocks := .frame f1 :: .frame f2 :: fs.map .frame
                  outcome := .upstreamExhausted
                  builderResponse := some resp0 }
            | .run_completed metrics :: _ =>
                let (item, f3, seq) := outputItemExit ctx seq
                let closed : List ResponseOutputItemState :=
                  core.items.map (fun i => { i with content_item := some item })
                let (resp, f4, _) := streamExit resp0 closed metrics seq
                { blocks := .frame f1 :: .frame f2 :: fs.map .frame
                    ++ [.frame f3, .frame f4, .sentinel]
                  outcome := .ok
                  builderResponse := some resp }
            | _ =>
                { blocks := .frame f1 :: .frame f2 :: fs.map .frame
                  outcome := .protocolViolation
                  builderResponse := some resp0 }
    | _ => { blocks := [], outcome := .protocolViolation, builderResponse := none }

/-- The contiguous integer run `start, start+1, ..., start+n-1`. -/
def seqList (start : Int) : Nat → List Int
  | 0 => []
  | n + 1 => start :: seqList (start + 1) n

/-- The sequence numbers of the JSON-bearing frames among a block list,
in emission order (the sentinel carries none). -/
def blocksSeqNums (bs : List Block) : List Int :=
  bs.filterMap (fun b => match b with
    | .frame f => some f.seqNum
    | .sentinel => none)

/-- Whether an event is `run_content` or `run_content_completed`. -/
def RunEvent.isContentish : RunEvent → Bool
  | .run_content _ _ => true
  | .run_content_completed => true
  | _ => false

/-- Matches `(run_content|run_content_completed)* run_completed`. -/
def matchesMid : List RunEvent → Bool
  | [] => false
  | [e] => (match e with | .run_completed _ => true | _ => false)
  | e :: rest => e.isContentish && matchesMid rest

/-- Matches `run_started (run_content|run_content_completed)* run_completed`. -/
def matchesValidShape : List RunEvent → Bool
  | .run_started _ _ :: rest => matchesMid rest
  | _ => false

/-- The JSON-bearing frames among a block list, in emission order. -/
def jsonFrames (bs : List Block) : List Frame :=
  bs.filterMap (fun b => match b with
    | .frame f => some f
    | .sentinel => none)

/-- Concatenation of a list of strings in order. -/
def concatList : List String → String
  | [] => ""
  | s :: ss => s ++ concatList ss

/-- Iterated `ResponseTextPart.add`, one call per delta, collecting the
emitted delta frames in call order. -/
def addSeq (p : TextPart) (ctx : OutputItemContext) (seq : Int) :
    List String → TextPart × List Frame × Int
  | [] => (p, [], seq)
  | d :: ds =>
      let (p, f, seq) := p.add ctx seq d
      let (p2, fs, seq2) := addSeq p ctx seq ds
      (p2, f :: fs, seq2)

/-- The section-8 scenario event sequence: run_started(id="r1",
created_at=1000), run_content("Hi"), run_content(" there"),
run_content_completed(), run_completed(metrics 3/2/5). -/
def c2events : List RunEvent :=
  [.run_started "r1" 1000,
   .run_content "str" (some "Hi"),
   .run_content "str" (some " there"),
   .run_content_completed,
   .run_completed (some
     { input_tokens := 3, output_tokens := 2, total_tokens := 5,
       cache_read_tokens := none })]

/-- An event sequence whose third event is a `run_content_completed`
with no open content part (only an empty chunk preceded it). -/
def emptyThenCompletedEvents : List RunEvent :=
  [.run_started "r1" 1000,
   .run_content "str" (some ""),
   .run_content_completed,
   .run_completed none]

lemma seqList_append (m : Nat) : ∀ (n : Nat) (a : Int),
    seqList a (n + m) = seqList a n ++ seqList (a + n) m := by
  intro n
  induction n with
  | zero => intro a; simp [seqList]
  | succ k ih =>
      intro a
      have h1 : k + 1 + m = (k + m) + 1 := by omega
      rw [h1]
      simp only [seqList, ih (a + 1), List.cons_append]
      have h2 : a + 1 + (k : Int) = a + ((k : Nat) + 1 : Nat) := by push_cast; ring
      rw [h2]

lemma contentLoop_spec (seq : Int) (ctx : OutputItemContext)
    (tp : Option TextPart) (events : List RunEvent) :
    (contentLoop seq ctx tp events).1.map Frame.seqNum
      = seqList (seq + 1) (contentLoop seq ctx tp events).1.length
    ∧ (∀ s c r, (contentLoop seq ctx tp events).2 = ContentRes.ok s c r →
        s = seq + (contentLoop seq ctx tp events).1.length) := by
  induction seq, ctx, tp, events using contentLoop.induct with
  | case1 seq ctx tp => simp [contentLoop, seqList]
  | case2 seq ctx tp rest => simp [contentLoop, seqList]
  | case3 seq ctx tp rest ih => simpa [contentLoop] using ih
  | case4 seq ctx rest t ht ctx1 p hnew f1 seq1 hent p1 f2 seq2 hadd fs r hcl ih =>
      have hent' := hent
      have hadd' := hadd
      simp only [TextPart.enter, SequenceNumberCounter.call, Prod.mk.injEq] at hent'
      simp only [TextPart.add, SequenceNumberCounter.call, Prod.mk.injEq] at hadd'
      obtain ⟨hf1, hseq1⟩ := hent'
      obtain ⟨hp1, hf2, hseq2⟩ := hadd'
      subst hseq1
      subst hseq2
      subst hf1
      subst hf2
      subst hp1
      rw [hcl] at ih
      obtain ⟨ih1, ih2⟩ := ih
      constructor
      · simp [contentLoop, ht, hnew, hent, hadd, hcl, ih1, Frame.seqNum, seqList]
      · intro s c rr hr
        simp [contentLoop, ht, hnew, hent, hadd, hcl] at hr
        have hs := ih2 s c rr (by simpa using hr)
        simp [contentLoop, ht, hnew, hent, hadd, hcl]
        push_cast at hs ⊢
        omega
  | case5 seq ctx rest t ht p p1 f2 seq1 hadd fs r hcl ih =>
      have hadd' := hadd
      simp only [TextPart.add, SequenceNumberCounter.call, Prod.mk.injEq] at hadd'
      obtain ⟨hp1, hf2, hseq1⟩ := hadd'
      subst hseq1
      subst hf2
      subst hp1
      rw [hcl] at ih
      obtain ⟨ih1, ih2⟩ := ih
      constructor
      · simp [contentLoop, ht, hadd, hcl, ih1, Frame.seqNum, seqList]
      · intro s c rr hr
        simp [contentLoop, ht, hadd, hcl] at hr
        have hs := ih2 s c rr (by simpa using hr)
        simp [contentLoop, ht, hadd, hcl]
        push_cast at hs ⊢
        omega
  | case6 seq ctx tp rest ct c hct => simp [contentLoop, hct, seqList]
  | case7 seq ctx rest => simp [contentLoop, seqList]
  | case8 seq ctx rest p p1 fd seq1 hdone ctx1 fe seq2 hexit fs r hcl ih =>
      have hdone' := hdone
      have hexit' := hexit
      simp only [TextPart.done, SequenceNumberCounter.call, Prod.mk.injEq] at hdone'
      simp only [TextPart.exit, SequenceNumberCounter.call, Prod.mk.injEq] at hexit'
      obtain ⟨hp1, hfd, hseq1⟩ := hdone'
      obtain ⟨hctx1, hfe, hseq2⟩ := hexit'
      subst hp1
      subst hseq1
      subst hseq2
      subst hfd
      subst hfe
      subst hctx1
      rw [hcl] at ih
      obtain ⟨ih1, ih2⟩ := ih
      constructor
      · simp [contentLoop, hdone, hexit, hcl, ih1, Frame.seqNum, seqList]
      · intro s c rr hr
        simp [contentLoop, hdone, hexit, hcl] at hr
        have hs := ih2 s c rr (by simpa using hr)
        simp [contentLoop, hdone, hexit, hcl]
        push_cast at hs ⊢
        omega
  | case9 seq ctx rest m p => simp [contentLoop, seqList]
  | case10 seq ctx rest m => simp [contentLoop, seqList]
  | case11 seq ctx tp ev rest h1 h2 h3 =>
      cases ev with
      | run_started rid cat => simp [contentLoop, seqList]
      | other id => simp [contentLoop, seqList]
      | run_content ct c => exact absurd rfl (h1 ct c)
      | run_content_completed => exact absurd rfl h2
      | run_completed m => exact absurd rfl (h3 m)

lemma seqList_length (a : Int) (n : Nat) : (seqList a n).length = n := by
  induction n generalizing a with
  | zero => simp [seqList]
  | succ k ih => simp [seqList, ih]

lemma blocksSeqNums_nil : blocksSeqNums [] = [] := rfl

lemma blocksSeqNums_cons_frame (f : Frame) (bs : List Block) :
    blocksSeqNums (Block.frame f :: bs) = f.seqNum :: blocksSeqNums bs := by
  simp [blocksSeqNums, List.filterMap_cons]

lemma blocksSeqNums_cons_sentinel (bs : List Block) :
    blocksSeqNums (Block.sentinel :: bs) = blocksSeqNums bs := by
  simp [blocksSeqNums, List.filterMap_cons]

lemma blocksSeqNums_map_frame (fs : List Frame) :
    blocksSeqNums (fs.map Block.frame) = fs.map Frame.seqNum := by
  induction fs with
  | nil => simp [blocksSeqNums]
  | cons f fs ih => rw [List.map_cons, blocksSeqNums_cons_frame, ih, List.map_cons]

lemma blocksSeqNums_append (a b : List Block) :
    blocksSeqNums (a ++ b) = blocksSeqNums a ++ blocksSeqNums b := by
  simp [blocksSeqNums, List.filterMap_append]

lemma translate_seqNums (model item_id : String) (events : List RunEvent) :
    blocksSeqNums (translate model item_id events).blocks
      = seqList 1 (blocksSeqNums (translate model item_id events).blocks).length := by
  cases events with
  | nil => simp [translate, blocksSeqNums, seqList]
  | cons ev rest =>
    cases ev with
    | run_content ct c => simp [translate, blocksSeqNums, seqList]
    | run_content_completed => simp [translate, blocksSeqNums, seqList]
    | run_completed m => simp [translate, blocksSeqNums, seqList]
    | other id => simp [translate, blocksSeqNums, seqList]
    | run_started rid cat =>
        have h := contentLoop_spec 2 (OutputItemContext.init item_id 0 0) none rest
        rcases hcl : contentLoop 2 (OutputItemContext.init item_id 0 0) none rest
          with (⟨fs, r⟩)
        rw [hcl] at h
        obtain ⟨h1, h2⟩ := h
        cases r with
        | err o =>
            simp [translate, SequenceNumberCounter.init, SequenceNumberCounter.call,
              outputItemEnter, ResponseStreamCore.new_output_item, ResponseStreamCore.init,
              hcl, blocksSeqNums_cons_frame, blocksSeqNums_map_frame, Frame.seqNum,
              h1, seqList_length, seqList]
        | ok s c rest2 =>
            have hs := h2 s c rest2 rfl
            cases rest2 with
            | nil =>
                simp [translate, SequenceNumberCounter.init, SequenceNumberCounter.call,
                  outputItemEnter, ResponseStreamCore.new_output_item, ResponseStreamCore.init,
                  hcl, blocksSeqNums_cons_frame, blocksSeqNums_map_frame, Frame.seqNum,
                  h1, seqList_length, seqList]
            | cons ev2 rest3 =>
                cases ev2 with
                | run_started r2 c2 =>
                    simp [translate, SequenceNumberCounter.init, SequenceNumberCounter.call,
                      outputItemEnter, ResponseStreamCore.new_output_item, ResponseStreamCore.init,
                      hcl, blocksSeqNums_cons_frame, blocksSeqNums_map_frame, Frame.seqNum,
                      h1, seqList_length, seqList]
                | run_content ct2 c2 =>
                    simp [translate, SequenceNumberCounter.init, SequenceNumberCounter.call,
                      outputItemEnter, ResponseStreamCore.new_output_item, ResponseStreamCore.init,
                      hcl, blocksSeqNums_cons_frame, blocksSeqNums_map_frame, Frame.seqNum,
                      h1, seqList_length, seqList]
                | run_content_completed =>
                    simp [translate, SequenceNumberCounter.init, SequenceNumberCounter.call,
                      outputItemEnter, ResponseStreamCore.new_output_item, ResponseStreamCore.init,
                      hcl, blocksSeqNums_cons_frame, blocksSeqNums_map_frame, Frame.seqNum,
                      h1, seqList_length, seqList]
                | other id2 =>
                    simp [translate, SequenceNumberCounter.init, SequenceNumberCounter.call,
                      outputItemEnter, ResponseStreamCore.new_output_item, ResponseStreamCore.init,
                      hcl, blocksSeqNums_cons_frame, blocksSeqNums_map_frame, Frame.seqNum,
                      h1, seqList_length, seqList]
                | run_completed metrics =>
                    simp [translate, SequenceNumberCounter.init, SequenceNumberCounter.call,
                      outputItemEnter, outputItemExit, streamExit,
                      ResponseStreamCore.new_output_item, ResponseStreamCore.init,
                      hcl, blocksSeqNums_cons_frame, blocksSeqNums_cons_sentinel,
                      blocksSeqNums_append, blocksSeqNums_map_frame, Frame.seqNum,
                      h1, seqList_length, seqList]
                    simp only [blocksSeqNums_nil]
                    simp only at hs
                    have htail : (s + 1) :: (s + 1 + 1) :: ([] : List Int)
                        = seqList (3 + (fs.length : Int)) 2 := by
                      simp [seqList] <;> omega
                    rw [htail, ← seqList_append 2 fs.length 3]
                    simp [seqList]

lemma contentLoop_no_completed (seq : Int) (ctx : OutputItemContext)
    (tp : Option TextPart) (events : List RunEvent) :
    ∀ f ∈ (contentLoop seq ctx tp events).1, f.isResponseCompleted = false := by
  induction seq, ctx, tp, events using contentLoop.induct with
  | case1 seq ctx tp => simp [contentLoop]
  | case2 seq ctx tp rest => simp [contentLoop]
  | case3 seq ctx tp rest ih => simpa [contentLoop] using ih
  | case4 seq ctx rest t ht ctx1 p hnew f1 seq1 hent p1 f2 seq2 hadd fs r hcl ih =>
      have hent' := hent
      have hadd' := hadd
      simp only [TextPart.enter, SequenceNumberCounter.call, Prod.mk.injEq] at hent'
      simp only [TextPart.add, SequenceNumberCounter.call, Prod.mk.injEq] at hadd'
      obtain ⟨hf1, hseq1⟩ := hent'
      obtain ⟨hp1, hf2, hseq2⟩ := hadd'
      subst hseq1
      subst hseq2
      subst hf1
      subst hf2
      subst hp1
      rw [hcl] at ih
      intro f hf
      simp [contentLoop, ht, hnew, hent, hadd, hcl] at hf
      rcases hf with hf | hf | hf
      · subst hf; simp [Frame.isResponseCompleted]
      · subst hf; simp [Frame.isResponseCompleted]
      · exact ih f (by simpa using hf)
  | case5 seq ctx rest t ht p p1 f2 seq1 hadd fs r hcl ih =>
      have hadd' := hadd
      simp only [TextPart.add, SequenceNumberCounter.call, Prod.mk.injEq] at hadd'
      obtain ⟨hp1, hf2, hseq1⟩ := hadd'
      subst hseq1
      subst hf2
      subst hp1
      rw [hcl] at ih
      intro f hf
      simp [contentLoop, ht, hadd, hcl] at hf
      rcases hf with hf | hf
      · subst hf; simp [Frame.isResponseCompleted]
      · exact ih f (by simpa using hf)
  | case6 seq ctx tp rest ct c hct => simp [contentLoop, hct]
  | case7 seq ctx rest => simp [contentLoop]
  | case8 seq ctx rest p p1 fd seq1 hdone ctx1 fe seq2 hexit fs r hcl ih =>
      have hdone' := hdone
      have hexit' := hexit
      simp only [TextPart.done, SequenceNumberCounter.call, Prod.mk.injEq] at hdone'
      simp only [TextPart.exit, SequenceNumberCounter.call, Prod.mk.injEq] at hexit'
      obtain ⟨hp1, hfd, hseq1⟩ := hdone'
      obtain ⟨hctx1, hfe, hseq2⟩ := hexit'
      subst hp1
      subst hseq1
      subst hseq2
      subst hfd
      subst hfe
      subst hctx1
      rw [hcl] at ih
      intro f hf
      simp [contentLoop, hdone, hexit, hcl] at hf
      rcases hf with hf | hf | hf
      · subst hf; simp [Frame.isResponseCompleted]
      · subst hf; simp [Frame.isResponseCompleted]
      · exact ih f (by simpa using hf)
  | case9 seq ctx rest m p => simp [contentLoop]
  | case10 seq ctx rest m => simp [contentLoop]
  | case11 seq ctx tp ev rest h1 h2 h3 =>
      cases ev with
      | run_started rid cat => simp [contentLoop]
      | other id => simp [contentLoop]
      | run_content ct c => exact absurd rfl (h1 ct c)
      | run_content_completed => exact absurd rfl h2
      | run_completed m => exact absurd rfl (h3 m)

lemma contentLoop_err_not_ok (seq : Int) (ctx : OutputItemContext)
    (tp : Option TextPart) (events : List RunEvent) :
    ∀ o, (contentLoop seq ctx tp events).2 = ContentRes.err o → o ≠ Outcome.ok := by
  induction seq, ctx, tp, events using contentLoop.induct with
  | case1 seq ctx tp => simp [contentLoop]
  | case2 seq ctx tp rest => simp [contentLoop]
  | case3 seq ctx tp rest ih => simpa [contentLoop] using ih
  | case4 seq ctx rest t ht ctx1 p hnew f1 seq1 hent p1 f2 seq2 hadd fs r hcl ih =>
      intro o ho
      rw [hcl] at ih
      apply ih o
      simpa [contentLoop, ht, hnew, hent, hadd, hcl] using ho
  | case5 seq ctx rest t ht p p1 f2 seq1 hadd fs r hcl ih =>
      intro o ho
      rw [hcl] at ih
      apply ih o
      simpa [contentLoop, ht, hadd, hcl] using ho
  | case6 seq ctx tp rest ct c hct => simp [contentLoop, hct]
  | case7 seq ctx rest => simp [contentLoop]
  | case8 seq ctx rest p p1 fd seq1 hdone ctx1 fe seq2 hexit fs r hcl ih =>
      intro o ho
      rw [hcl] at ih
      apply ih o
      simpa [contentLoop, hdone, hexit, hcl] using ho
  | case9 seq ctx rest m p => simp [contentLoop]
  | case10 seq ctx rest m => simp [contentLoop]
  | case11 seq ctx tp ev rest h1 h2 h3 =>
      cases ev with
      | run_started rid cat => simp [contentLoop]
      | other id => simp [contentLoop]
      | run_content ct c => exact absurd rfl (h1 ct c)
      | run_content_completed => exact absurd rfl h2
      | run_completed m => exact absurd rfl (h3 m)

lemma translate_no_terminal (model item_id : String) (events : List RunEvent)
    (h : (translate model item_id events).outcome ≠ Outcome.ok) :
    Block.sentinel ∉ (translate model item_id events).blocks
    ∧ ∀ r n, Block.frame (Frame.response_completed r n) ∉
        (translate model item_id events).blocks := by
  cases events with
  | nil => simp [translate]
  | cons ev rest =>
    cases ev with
    | run_content ct c => simp [translate]
    | run_content_completed => simp [translate]
    | run_completed m => simp [translate]
    | other id => simp [translate]
    | run_started rid cat =>
        have hnc := contentLoop_no_completed 2 (OutputItemContext.init item_id 0 0)
          none rest
        rcases hcl : contentLoop 2 (OutputItemContext.init item_id 0 0) none rest
          with (⟨fs, r⟩)
        rw [hcl] at hnc
        cases r with
        | err o =>
            constructor
            · simp [translate, SequenceNumberCounter.init, SequenceNumberCounter.call,
                outputItemEnter, ResponseStreamCore.new_output_item, ResponseStreamCore.init,
                hcl]
            · intro rr n hmem
              simp [translate, SequenceNumberCounter.init, SequenceNumberCounter.call,
                outputItemEnter, ResponseStreamCore.new_output_item, ResponseStreamCore.init,
                hcl] at hmem
              have hbad := hnc (Frame.response_completed rr n) (by simpa using hmem)
              simp [Frame.isResponseCompleted] at hbad
        | ok s c rest2 =>
            cases rest2 with
            | nil =>
                constructor
                · simp [translate, SequenceNumberCounter.init, SequenceNumberCounter.call,
                    outputItemEnter, ResponseStreamCore.new_output_item, ResponseStreamCore.init,
                    hcl]
                · intro rr n hmem
                  simp [translate, SequenceNumberCounter.init, SequenceNumberCounter.call,
                    outputItemEnter, ResponseStreamCore.new_output_item, ResponseStreamCore.init,
                    hcl] at hmem
                  have hbad := hnc (Frame.response_completed rr n) (by simpa using hmem)
                  simp [Frame.isResponseCompleted] at hbad
            | cons ev2 rest3 =>
                cases ev2 with
                | run_completed metrics =>
                    exfalso
                    apply h
                    simp [translate, SequenceNumberCounter.init, SequenceNumberCounter.call,
                      outputItemEnter, ResponseStreamCore.new_output_item, ResponseStreamCore.init,
                      hcl]
                | run_started r2 c2 =>
                    constructor
                    · simp [translate, SequenceNumberCounter.init, SequenceNumberCounter.call,
                        outputItemEnter, ResponseStreamCore.new_output_item, ResponseStreamCore.init,
                        hcl]
                    · intro rr n hmem
                      simp [translate, SequenceNumberCounter.init, SequenceNumberCounter.call,
                        outputItemEnter, ResponseStreamCore.new_output_item, ResponseStreamCore.init,
                        hcl] at hmem
                      have hbad := hnc (Frame.response_completed rr n) (by simpa using hmem)
                      simp [Frame.isResponseCompleted] at hbad
                | run_content ct2 c2 =>
                    constructor
                    · simp [translate, SequenceNumberCounter.init, SequenceNumberCounter.call,
                        outputItemEnter, ResponseStreamCore.new_output_item, ResponseStreamCore.init,
                        hcl]
                    · intro rr n hmem
                      simp [translate, SequenceNumberCounter.init, SequenceNumberCounter.call,
                        outputItemEnter, ResponseStreamCore.new_output_item, ResponseStreamCore.init,
                        hcl] at hmem
                      have hbad := hnc (Frame.response_completed rr n) (by simpa using hmem)
                      simp [Frame.isResponseCompleted] at hbad
                | run_content_completed =>
                    constructor
                    · simp [translate, SequenceNumberCounter.init, SequenceNumberCounter.call,
                        outputItemEnter, ResponseStreamCore.new_output_item, ResponseStreamCore.init,
                        hcl]
                    · intro rr n hmem
                      simp [translate, SequenceNumberCounter.init, SequenceNumberCounter.call,
                        outputItemEnter, ResponseStreamCore.new_output_item, ResponseStreamCore.init,
                        hcl] at hmem
                      have hbad := hnc (Frame.response_completed rr n) (by simpa using hmem)
                      simp [Frame.isResponseCompleted] at hbad
                | other id2 =>
                    constructor
                    · simp [translate, SequenceNumberCounter.init, SequenceNumberCounter.call,
                        outputItemEnter, ResponseStreamCore.new_output_item, ResponseStreamCore.init,
                        hcl]
                    · intro rr n hmem
                      simp [translate, SequenceNumberCounter.init, SequenceNumberCounter.call,
                        outputItemEnter, ResponseStreamCore.new_output_item, ResponseStreamCore.init,
                        hcl] at hmem
                      have hbad := hnc (Frame.response_completed rr n) (by simpa using hmem)
                      simp [Frame.isResponseCompleted] at hbad

lemma addSeq_spec (ds : List String) : ∀ (p : TextPart) (ctx : OutputItemContext)
    (seq : Int),
    (addSeq p ctx seq ds).1.text = p.text ++ concatList ds
    ∧ (addSeq p ctx seq ds).1.content_index = p.content_index
    ∧ (addSeq p ctx seq ds).2.1.filterMap Frame.deltaText = ds := by
  induction ds with
  | nil => intro p ctx seq; simp [addSeq, concatList]
  | cons d ds ih =>
      intro p ctx seq
      obtain ⟨ih1, ih2, ih3⟩ := ih { p with text := p.text ++ d } ctx (seq + 1)
      refine ⟨?_, ?_, ?_⟩
      · simp [addSeq, TextPart.add, SequenceNumberCounter.call, concatList, ih1,
          String.append_assoc]
      · simpa [addSeq, TextPart.add, SequenceNumberCounter.call] using ih2
      · simp [addSeq, TextPart.add, SequenceNumberCounter.call, List.filterMap_cons,
          Frame.deltaText, ih3]

lemma newOutputItems_spec (ids : List String) : ∀ (s : ResponseStreamCore),
    (newOutputItems s ids).items.map (fun i => i.ctx.output_index)
      = s.items.map (fun i => i.ctx.output_index)
        ++ seqList (s.output_index + 1) ids.length := by
  induction ids with
  | nil => intro s; simp [newOutputItems, seqList]
  | cons id ids ih =>
      intro s
      rw [newOutputItems, ih]
      simp [ResponseStreamCore.new_output_item, OutputItemContext.init, seqList]

lemma newTextParts_spec (n : Nat) : ∀ (ctx : OutputItemContext),
    ((newTextParts ctx n).2.map (fun p => p.content_index)
      = seqList (ctx.content_index + 1) n)
    ∧ (newTextParts ctx n).1.content_index = ctx.content_index + n := by
  induction n with
  | zero => intro ctx; simp [newTextParts, seqList]
  | succ k ih =>
      intro ctx
      obtain ⟨ih1, ih2⟩ := ih { ctx with content_index := ctx.content_index + 1 }
      constructor
      · simp [newTextParts, newTextPart, OutputItemContext.nextContentIndex, seqList,
          ih1]
      · simp [newTextParts, newTextPart, OutputItemContext.nextContentIndex, ih2]
        ring

/-- C1: for every upstream event sequence matching run_started, (run_content|run_content_completed)*, run_completed, the sequence_number values on the emitted frames are exactly the contiguous range 1..N in emission order, across response, output-item and content-part frames alike.  (The underlying lemma translate_seqNums shows this for every event sequence.) -/
theorem c1_sequence_numbers_contiguous (model item_id : String) (events : List RunEvent)
    (h : matchesValidShape events = true) :
    blocksSeqNums (translate model item_id events).blocks
      = seqList 1 (blocksSeqNums (translate model item_id events).blocks).length :=
  translate_seqNums model item_id events

/-- Witness for C1 at the concrete section-8 scenario. -/
theorem c1_sequence_numbers_contiguous_witness :
    matchesValidShape c2events = true
    ∧ blocksSeqNums (translate "gpt-test" "msg_00000001" c2events).blocks
        = seqList 1 (blocksSeqNums
            (translate "gpt-test" "msg_00000001" c2events).blocks).length :=
  ⟨by decide, c1_sequence_numbers_contiguous "gpt-test" "msg_00000001" c2events (by decide)⟩

/-- C2 counterexample: the section-8 scenario emits 9 JSON frames, not the 8 the claim states. -/
theorem c2_frame_count_counterexample :
    (jsonFrames (translate "gpt-test" "msg_00000001" c2events).blocks).length = 9
    ∧ (jsonFrames (translate "gpt-test" "msg_00000001" c2events).blocks).length ≠ 8 := by
  refine ⟨by decide, by decide⟩

/-- C2 (amended): the scenario emits exactly 9 frames, the last of which is a response.completed carrying usage input 3 / output 2 / total 5, followed by the literal DONE sentinel block, and the single output item's single content part has final text "Hi there". -/
theorem c2_scenario_amended :
    (translate "gpt-test" "msg_00000001" c2events).outcome = Outcome.ok
    ∧ (jsonFrames (translate "gpt-test" "msg_00000001" c2events).blocks).length = 9
    ∧ (translate "gpt-test" "msg_00000001" c2events).blocks.getLast?
        = some Block.sentinel
    ∧ (jsonFrames (translate "gpt-test" "msg_00000001" c2events).blocks).getLast?
        = some (Frame.response_completed
            { id := "r1", created_at := 1000, model := "gpt-test",
              status := some "completed",
              output := [{ id := "msg_00000001",
                           content := [{ text := "Hi there" }],
                           role := "assistant", status := "completed" }],
              usage := some { input_tokens := 3, cached_tokens := 0,
                              output_tokens := 2, reasoning_tokens := 0,
                              total_tokens := 5 } } 9) := by
  refine ⟨by decide, by decide, by decide, by decide⟩

/-- C3: a run_content_completed with no open part, and a run_completed with an open part, each raise a ProtocolViolation with no frame emitted for the violating event; and whenever a run ends in ProtocolViolation, its emitted blocks contain no DONE sentinel and no response.completed frame. -/
theorem c3_protocol_violation_halts :
    (∀ (seq : Int) (ctx : OutputItemContext) (rest : List RunEvent),
        contentLoop seq ctx none (RunEvent.run_content_completed :: rest)
          = ([], ContentRes.err Outcome.protocolViolation))
    ∧ (∀ (seq : Int) (ctx : OutputItemContext) (p : TextPart) (m : Option Metrics)
          (rest : List RunEvent),
        contentLoop seq ctx (some p) (RunEvent.run_completed m :: rest)
          = ([], ContentRes.err Outcome.protocolViolation))
    ∧ (∀ (model item_id : String) (events : List RunEvent),
        (translate model item_id events).outcome = Outcome.protocolViolation →
          Block.sentinel ∉ (translate model item_id events).blocks
          ∧ ∀ r n, Block.frame (Frame.response_completed r n) ∉
              (translate model item_id events).blocks) := by
  refine ⟨?_, ?_, ?_⟩
  · intro seq ctx rest
    simp [contentLoop]
  · intro seq ctx p m rest
    simp [contentLoop]
  · intro model item_id events h
    exact translate_no_terminal model item_id events (by simp [h])

/-- Witness for C3 at a concrete violating sequence (run_content_completed after only an empty chunk). -/
theorem c3_protocol_violation_halts_witness :
    (translate "gpt-test" "msg_00000001" emptyThenCompletedEvents).outcome
        = Outcome.protocolViolation
    ∧ (Block.sentinel ∉
        (translate "gpt-test" "msg_00000001" emptyThenCompletedEvents).blocks
       ∧ ∀ r n, Block.frame (Frame.response_completed r n) ∉
          (translate "gpt-test" "msg_00000001" emptyThenCompletedEvents).blocks) :=
  ⟨by decide, c3_protocol_violation_halts.2.2 "gpt-test" "msg_00000001" emptyThenCompletedEvents
      (by decide)⟩

/-- C4: for a freshly allocated text part, the text of the output_text.done frame and of the content_part.done frame equals the concatenation, in emission order, of the delta strings of its delta frames; an explicit text passed to done replaces the buffer and becomes the text of both closing frames. -/
theorem c4_delta_concat_done_text (ctx ctx1 : OutputItemContext) (seq seq1 : Int)
    (p0 p1 : TextPart) (ds : List String) (dfs : List Frame) (tOver : String)
    (h0 : newTextPart ctx = (ctx1, p0))
    (h1 : addSeq p0 ctx1 seq ds = (p1, dfs, seq1)) :
    dfs.filterMap Frame.deltaText = ds
    ∧ (p1.done ctx1 seq1 none).2.1
        = Frame.output_text_done p1.content_index ctx1.item_id ctx1.output_index
            (seq1 + 1) (concatList ds)
    ∧ ((p1.done ctx1 seq1 none).1.exit ctx1 (seq1 + 1)).2.1
        = Frame.content_part_done p1.content_index ctx1.item_id ctx1.output_index
            { text := concatList ds } (seq1 + 1 + 1)
    ∧ (p1.done ctx1 seq1 (some tOver)).2.1
        = Frame.output_text_done p1.content_index ctx1.item_id ctx1.output_index
            (seq1 + 1) tOver
    ∧ ((p1.done ctx1 seq1 (some tOver)).1.exit ctx1 (seq1 + 1)).2.1
        = Frame.content_part_done p1.content_index ctx1.item_id ctx1.output_index
            { text := tOver } (seq1 + 1 + 1) := by
  have hp0 : p0.text = "" := by
    have h0' := h0
    simp [newTextPart, OutputItemContext.nextContentIndex, Prod.mk.injEq] at h0'
    rw [← h0'.2]
  obtain ⟨ha1, ha2, ha3⟩ := addSeq_spec ds p0 ctx1 seq
  rw [h1] at ha1 ha2 ha3
  simp only at ha1 ha2 ha3
  rw [hp0, String.empty_append] at ha1
  refine ⟨ha3, ?_, ?_, ?_, ?_⟩
  · simp [TextPart.done, SequenceNumberCounter.call, ha1]
  · simp [TextPart.done, TextPart.exit, OutputItemContext.add_content,
      SequenceNumberCounter.call, ha1]
  · simp [TextPart.done, SequenceNumberCounter.call]
  · simp [TextPart.done, TextPart.exit, OutputItemContext.add_content,
      SequenceNumberCounter.call]

/-- Witness for C4 at a concrete part with deltas "Hi", " there". -/
theorem c4_delta_concat_done_text_witness :
    ∃ ctx1 p0 p1 dfs seq1,
      newTextPart (OutputItemContext.init "msg_00000001" 0 0) = (ctx1, p0)
      ∧ addSeq p0 ctx1 3 ["Hi", " there"] = (p1, dfs, seq1)
      ∧ (dfs.filterMap Frame.deltaText = ["Hi", " there"]
         ∧ (p1.done ctx1 seq1 none).2.1
             = Frame.output_text_done p1.content_index ctx1.item_id
                 ctx1.output_index (seq1 + 1) (concatList ["Hi", " there"])) := by
  refine ⟨_, _, _, _, _, rfl, rfl, ?_⟩
  have h := c4_delta_concat_done_text (OutputItemContext.init "msg_00000001" 0 0) _ 3 _ _ _
    ["Hi", " there"] _ "zzz" rfl rfl
  exact ⟨h.1, h.2.1⟩

/-- C5: output_index values of the items created on one stream are exactly 0..itemCount-1 in creation order, and content_index values of the parts created on one item are exactly 0..partCount-1 in creation order. -/
theorem c5_dense_indices (ids : List String) (item_id : String) (oi : Int) (n : Nat) :
    (newOutputItems ResponseStreamCore.init ids).items.map
        (fun i => i.ctx.output_index) = seqList 0 ids.length
    ∧ (newTextParts (OutputItemContext.init item_id oi 0) n).2.map
        (fun p => p.content_index) = seqList 0 n := by
  constructor
  · have h := newOutputItems_spec ids ResponseStreamCore.init
    simpa [ResponseStreamCore.init] using h
  · have h := (newTextParts_spec n (OutputItemContext.init item_id oi 0)).1
    simpa [OutputItemContext.init] using h

/-- C6: the response carried by the terminal response.completed frame has status "completed" and its output is exactly the content_item snapshots of the closed items, in creation order; items whose content_item was never set (opened but not closed) are omitted. -/
theorem c6_completed_output_closed_items (resp : Response) (items : List ResponseOutputItemState)
    (metrics : Option Metrics) (seq : Int) :
    (streamExit resp items metrics seq).2.1
      = Frame.response_completed (streamExit resp items metrics seq).1 (seq + 1)
    ∧ (streamExit resp items metrics seq).1.status = some "completed"
    ∧ (streamExit resp items metrics seq).1.output
        = items.filterMap (fun i => i.content_item) := by
  refine ⟨?_, ?_, ?_⟩ <;>
    cases metrics <;>
      simp [streamExit, ResponseBuilder.output, ResponseBuilder.status,
        ResponseBuilder.metrics, SequenceNumberCounter.call]

/-- C7 counterexample: metrics carrying cache_read_tokens = 7 still produce a usage with cached_tokens = 0; cache_read_tokens is never attached to input_tokens_details.cached_tokens. -/
theorem c7_cached_tokens_counterexample :
    (ResponseBuilder.metrics (ResponseBuilder.init "r1" 1000 "gpt-test")
        (some { input_tokens := 3, output_tokens := 2, total_tokens := 5,
                cache_read_tokens := some 7 })).usage
      = some { input_tokens := 3, cached_tokens := 0, output_tokens := 2,
               reasoning_tokens := 0, total_tokens := 5 }
    ∧ (ResponseBuilder.metrics (ResponseBuilder.init "r1" 1000 "gpt-test")
        (some { input_tokens := 3, output_tokens := 2, total_tokens := 5,
                cache_read_tokens := some 7 })).usage
      ≠ some { input_tokens := 3, cached_tokens := 7, output_tokens := 2,
               reasoning_tokens := 0, total_tokens := 5 } := by
  refine ⟨by decide, by decide⟩

/-- C7 (amended): the usage attached at completion copies input_tokens, output_tokens and total_tokens from the metrics and always sets cached_tokens and reasoning_tokens to 0 (cache_read_tokens is ignored); with no metrics the response is unchanged, so usage stays null. -/
theorem c7_usage_amended (r : Response) (m : Metrics)
    (items : List ResponseOutputItemState) (seq : Int) :
    (ResponseBuilder.metrics r (some m)).usage
      = some { input_tokens := m.input_tokens, cached_tokens := 0,
               output_tokens := m.output_tokens, reasoning_tokens := 0,
               total_tokens := m.total_tokens }
    ∧ ResponseBuilder.metrics r none = r
    ∧ (streamExit r items (some m) seq).1.usage
      = some { input_tokens := m.input_tokens, cached_tokens := 0,
               output_tokens := m.output_tokens, reasoning_tokens := 0,
               total_tokens := m.total_tokens }
    ∧ (streamExit r items none seq).1.usage = r.usage := by
  refine ⟨rfl, rfl, rfl, rfl⟩

/-- C8 counterexample: calling new_text_part while the previously allocated part of the item is not yet closed does not fail the stream: it silently returns a fresh part carrying the next content_index. -/
theorem c8_unguarded_counterexample :
    (newTextPart (OutputItemContext.init "msg_00000001" 0 0)).2.content_index = 0
    ∧ (newTextPart (newTextPart (OutputItemContext.init "msg_00000001" 0 0)).1).2
        = { text := "", content_index := 1 } := by
  refine ⟨by decide, by decide⟩

/-- C8 (amended): new_text_part performs no open-part check and unconditionally allocates the next content_index; a second concurrent part never arises in the driver because _content calls new_text_part only when text_part is None — while a part is open, a content event only emits a delta frame. -/
theorem c8_new_text_part_amended :
    (∀ ctx : OutputItemContext,
        newTextPart ctx = ({ ctx with content_index := ctx.content_index + 1 },
          { text := "", content_index := ctx.content_index + 1 }))
    ∧ (∀ (seq : Int) (ctx : OutputItemContext) (p : TextPart) (s : String)
          (rest : List RunEvent), s ≠ "" →
        contentLoop seq ctx (some p) (RunEvent.run_content "str" (some s) :: rest)
          = ((p.add ctx seq s).2.1
              :: (contentLoop (p.add ctx seq s).2.2 ctx
                    (some (p.add ctx seq s).1) rest).1,
             (contentLoop (p.add ctx seq s).2.2 ctx
                (some (p.add ctx seq s).1) rest).2)) := by
  constructor
  · intro ctx
    rfl
  · intro seq ctx p s rest hs
    simp [contentLoop, hs]

/-- Witness for the C8 amended claim at a concrete open part. -/
theorem c8_new_text_part_amended_witness :
    (("x" : String) ≠ "")
    ∧ contentLoop 0 (OutputItemContext.init "msg_00000001" 0 0)
        (some { text := "", content_index := 0 })
        (RunEvent.run_content "str" (some "x") :: [])
      = ((TextPart.add { text := "", content_index := 0 }
            (OutputItemContext.init "msg_00000001" 0 0) 0 "x").2.1
          :: (contentLoop (TextPart.add { text := "", content_index := 0 }
                (OutputItemContext.init "msg_00000001" 0 0) 0 "x").2.2
                (OutputItemContext.init "msg_00000001" 0 0)
                (some (TextPart.add { text := "", content_index := 0 }
                  (OutputItemContext.init "msg_00000001" 0 0) 0 "x").1) []).1,
         (contentLoop (TextPart.add { text := "", content_index := 0 }
            (OutputItemContext.init "msg_00000001" 0 0) 0 "x").2.2
            (OutputItemContext.init "msg_00000001" 0 0)
            (some (TextPart.add { text := "", content_index := 0 }
              (OutputItemContext.init "msg_00000001" 0 0) 0 "x").1) []).2) :=
  ⟨by decide, c8_new_text_part_amended.2 0 (OutputItemContext.init "msg_00000001" 0 0)
      { text := "", content_index := 0 } "x" [] (by decide)⟩

/-- C9: an empty-string run_content event is consumed with no frame emitted and no part opened: the content loop continues on the remaining events from exactly the same state. -/
theorem c9_empty_content_ignored (seq : Int) (ctx : OutputItemContext) (tp : Option TextPart)
    (rest : List RunEvent) :
    contentLoop seq ctx tp (RunEvent.run_content "str" (some "") :: rest)
      = contentLoop seq ctx tp rest := by
  simp [contentLoop]

/-- C10: on every successful run, the builder's single mutable Response record — returned by reference from build() into both the response.created and response.completed events — ends with status "completed" and is the very response embedded in the terminal frame, while the wire snapshot serialized into the created frame shows in_progress with empty output and null usage. -/
theorem c10_created_aliases_final_response (model item_id : String) (events : List RunEvent)
    (h : (translate model item_id events).outcome = Outcome.ok) :
    ∃ r n r0 mid,
      (translate model item_id events).builderResponse = some r
      ∧ (translate model item_id events).blocks
          = Block.frame (Frame.response_created r0 1)
              :: (mid ++ [Block.frame (Frame.response_completed r n),
                    Block.sentinel])
      ∧ r.status = some "completed"
      ∧ r0.status = some "in_progress"
      ∧ r0.output = []
      ∧ r0.usage = none := by
  cases events with
  | nil => simp [translate] at h
  | cons ev rest =>
    cases ev with
    | run_content ct c => simp [translate] at h
    | run_content_completed => simp [translate] at h
    | run_completed m => simp [translate] at h
    | other id => simp [translate] at h
    | run_started rid cat =>
        have hne := contentLoop_err_not_ok 2 (OutputItemContext.init item_id 0 0)
          none rest
        rcases hcl : contentLoop 2 (OutputItemContext.init item_id 0 0) none rest
          with (⟨fs, r⟩)
        rw [hcl] at hne
        cases r with
        | err o =>
            exfalso
            simp [translate, SequenceNumberCounter.init, SequenceNumberCounter.call,
              outputItemEnter, ResponseStreamCore.new_output_item,
              ResponseStreamCore.init, hcl] at h
            exact hne o rfl h
        | ok s c rest2 =>
            cases rest2 with
            | nil =>
                simp [translate, SequenceNumberCounter.init, SequenceNumberCounter.call,
                  outputItemEnter, ResponseStreamCore.new_output_item,
                  ResponseStreamCore.init, hcl] at h
            | cons ev2 rest3 =>
                cases ev2 with
                | run_started r2 c2 =>
                    simp [translate, SequenceNumberCounter.init,
                      SequenceNumberCounter.call, outputItemEnter,
                      ResponseStreamCore.new_output_item, ResponseStreamCore.init,
                      hcl] at h
                | run_content ct2 c2 =>
                    simp [translate, SequenceNumberCounter.init,
                      SequenceNumberCounter.call, outputItemEnter,
                      ResponseStreamCore.new_output_item, ResponseStreamCore.init,
                      hcl] at h
                | run_content_completed =>
                    simp [translate, SequenceNumberCounter.init,
                      SequenceNumberCounter.call, outputItemEnter,
                      ResponseStreamCore.new_output_item, ResponseStreamCore.init,
                      hcl] at h
                | other id2 =>
                    simp [translate, SequenceNumberCounter.init,
                      SequenceNumberCounter.call, outputItemEnter,
                      ResponseStreamCore.new_output_item, ResponseStreamCore.init,
                      hcl] at h
                | run_completed metrics =>
                    simp [translate, SequenceNumberCounter.init,
                      SequenceNumberCounter.call, outputItemEnter, outputItemExit,
                      streamExit, ResponseStreamCore.new_output_item,
                      ResponseStreamCore.init, hcl]
                    refine ⟨s + 1 + 1,
                      ResponseBuilder.status (ResponseBuilder.init rid cat model)
                        "in_progress",
                      ⟨rfl, Block.frame (Frame.output_item_added
                          { id := (OutputItemContext.init item_id 0 0).item_id,
                            content := [], role := "assistant",
                            status := "in_progress" }
                          (OutputItemContext.init item_id 0 0).output_index 2)
                        :: (List.map Block.frame fs
                            ++ [Block.frame (Frame.output_item_done
                                { id := c.item_id, content := c.content,
                                  role := "assistant", status := "completed" }
                                c.output_index (s + 1))]), ?_⟩, ?_, rfl, rfl, rfl⟩
                    · simp
                    · cases metrics with
                      | none => simp [ResponseBuilder.metrics, ResponseBuilder.status]
                      | some mm => simp [ResponseBuilder.metrics, ResponseBuilder.status]

/-- Witness for C10 at the concrete section-8 scenario. -/
theorem c10_created_aliases_final_response_witness :
    (translate "gpt-test" "msg_00000001" c2events).outcome = Outcome.ok
    ∧ ∃ r n r0 mid,
        (translate "gpt-test" "msg_00000001" c2events).builderResponse = some r
        ∧ (translate "gpt-test" "msg_00000001" c2events).blocks
            = Block.frame (Frame.response_created r0 1)
                :: (mid ++ [Block.frame (Frame.response_completed r n),
                      Block.sentinel])
        ∧ r.status = some "completed"
        ∧ r0.status = some "in_progress"
        ∧ r0.output = []
        ∧ r0.usage = none :=
  ⟨by decide, c10_created_aliases_final_response "gpt-test" "msg_00000001"
      c2events (by decide)⟩
